import Mathlib

/-!
Shallow embedding of `validate-contracts.js` (contract scanner of the
teric-io/.github repository).

The scanner reads a configuration file, enumerates source files, scans each
line against three fixed registries of known infrastructure identifiers and
emits a JSON report plus an exit code.  File-system effects (reading the
configuration file, enumerating and reading source files) are modelled as
explicit inputs: the configuration parse result is a `ConfigParse` value and
the enumerated files are a list of `(path, read result)` pairs, a read
failure being an `Except.error` carrying the runtime error message.
`ConfigParse` covers the full range of `parseContractsFile`, including a
nullish document (`yaml.load` of an empty or comments-only file), and the
declared-contract shapes include the truthy malformed values on which the
code throws; an exception escaping the JS `validate` function is an
`Except.error JsError` of `validateThrows`, which the process-level
`validate` turns into the Node default behavior: no report, exit code 1.
The `timestamp` metadata field (wall clock) is omitted from the model.
-/

namespace ContractValidation

/-- The single-quote character (39), written via `Char.ofNat`. -/
def squote : Char := Char.ofNat 39

/-- The double-quote character (34). -/
def dquote : Char := Char.ofNat 34

/-- The back-quote character (96). -/
def bquote : Char := Char.ofNat 96

/-- A one-character string holding a single quote, used to build the
string literals that the JS source writes with quote characters inside. -/
def sq : String := String.singleton squote

/-- The regex character class used for closing/opening quotes in all three
patterns of the scanner: single quote, double quote or back-quote. -/
def isQuoteChar (c : Char) : Bool := c = squote || c = dquote || c = bquote

/-- ASCII portion of the JS regex class represented by backslash-s
(whitespace).  Scanned lines never contain a newline (the file content is
split on newlines first), so the ASCII subset is faithful for this corpus. -/
def isJsSpace (c : Char) : Bool :=
  c = ' ' || c = Char.ofNat 9 || c = Char.ofNat 10 || c = Char.ofNat 13 ||
  c = Char.ofNat 11 || c = Char.ofNat 12

/-- The separator class appearing in the Lambda / event-source patterns:
single quote, double quote, whitespace or colon (no back-quote). -/
def isSepChar (c : Char) : Bool := c = squote || c = dquote || isJsSpace c || c = ':'

/-- Case-insensitive character comparison (the `i` regex flag). -/
def lcEq (a b : Char) : Bool := a.toLower = b.toLower

/-- Tokens of the concrete regular expressions built by the scanner.
`lit` is a case-insensitive literal character, `optHyphen` is the class
hyphen-question-mark produced by replacing each hyphen of a table name,
`quoteCls` is the quote class, `sepPlus` is one-or-more separator
characters, `dotAny` is the regex dot (event-source names contain a dot,
which the JS code interpolates unescaped). -/
inductive PatTok where
  | lit (c : Char)
  | optHyphen
  | quoteCls
  | sepPlus
  | dotAny
deriving DecidableEq

/-- Helper for the one-or-more separator token: try the continuation at the
current position, or consume one more separator character and repeat. -/
def afterSeps (k : List Char → Bool) : List Char → Bool
  | [] => k []
  | c :: cs => k (c :: cs) || (isSepChar c && afterSeps k cs)

/-- Whether a token pattern matches a prefix of the character list
(the remainder of the line is irrelevant, as for a JS `regex.test`). -/
def matchToks : List PatTok → List Char → Bool
  | [], _ => true
  | PatTok.lit _ :: _, [] => false
  | PatTok.lit p :: ps, c :: cs => lcEq p c && matchToks ps cs
  | PatTok.optHyphen :: ps, [] => matchToks ps []
  | PatTok.optHyphen :: ps, c :: cs =>
      if c = '-' then matchToks ps cs || matchToks ps (c :: cs)
      else matchToks ps (c :: cs)
  | PatTok.quoteCls :: _, [] => false
  | PatTok.quoteCls :: ps, c :: cs => isQuoteChar c && matchToks ps cs
  | PatTok.dotAny :: _, [] => false
  | PatTok.dotAny :: ps, c :: cs =>
      !(c = Char.ofNat 10 || c = Char.ofNat 13) && matchToks ps cs
  | PatTok.sepPlus :: _, [] => false
  | PatTok.sepPlus :: ps, c :: cs => isSepChar c && afterSeps (matchToks ps) cs

/-- Unanchored search: whether the pattern matches at some position of the
line, as JS `regex.test` does. -/
def searchToks (ps : List PatTok) : List Char → Bool
  | [] => matchToks ps []
  | c :: cs => matchToks ps (c :: cs) || searchToks ps cs

/-- The table-name regex: a quote, the table name with every hyphen made
optional (`tableName.replace` of each hyphen by an optional-hyphen class),
then a quote.  Flags `gi`; the regex object is created afresh for every
line, so the global flag has no observable effect on `test`. -/
def tablePat (tableName : String) : List PatTok :=
  [PatTok.quoteCls]
    ++ tableName.toList.map (fun c => if c = '-' then PatTok.optHyphen else PatTok.lit c)
    ++ [PatTok.quoteCls]

/-- The keyed patterns (`FunctionName` / `Source`): the keyword, one or more
separator-class characters, a quote, the identifier (a dot in the identifier
is interpolated unescaped and hence matches any character), and a quote. -/
def keyedPat (keyword : String) (name : String) : List PatTok :=
  keyword.toList.map PatTok.lit
    ++ [PatTok.sepPlus, PatTok.quoteCls]
    ++ name.toList.map (fun c => if c = '.' then PatTok.dotAny else PatTok.lit c)
    ++ [PatTok.quoteCls]

/-- `regex.test` for the hardcoded-table-name check. -/
def tableRegexTest (tableName line : String) : Bool :=
  searchToks (tablePat tableName) line.toList

/-- `regex.test` for the hardcoded-Lambda-name check. -/
def lambdaRegexTest (funcName line : String) : Bool :=
  searchToks (keyedPat "FunctionName" funcName) line.toList

/-- `regex.test` for the hardcoded-event-source check. -/
def sourceRegexTest (src line : String) : Bool :=
  searchToks (keyedPat "Source" src) line.toList

/-- KNOWN_TABLE_PATTERNS of the source. -/
def KNOWN_TABLE_PATTERNS : List String :=
  [ "teric-agentic-work-items",
    "teric-agentic-initiatives",
    "teric-agentic-code-reviews",
    "teric-agentic-knowledge-facts",
    "teric-agentic-e2e-test-runs",
    "teric-agentic-e2e-consecutive-passes",
    "teric-agentic-e2e-repository-registry",
    "teric-agentic-workflows",
    "teric-agentic-executions",
    "teric-agentic-metrics",
    "teric-agentic-contract-release-records",
    "teric-agentic-crr-consumption-tokens" ]

/-- KNOWN_LAMBDA_PATTERNS of the source. -/
def KNOWN_LAMBDA_PATTERNS : List String :=
  [ "app-code-review",
    "app-e2e-tester",
    "app-planning-coordinator",
    "app-infra-promoter",
    "app-llm-advisor",
    "mcp-work-coordinator",
    "mcp-knowledge-graph",
    "teric-orchestrator" ]

/-- KNOWN_EVENT_SOURCES of the source. -/
def KNOWN_EVENT_SOURCES : List String :=
  [ "teric.orchestrator",
    "teric.code-review",
    "teric.e2e-tester",
    "teric.planning",
    "teric.infra-promoter" ]

/-- One finding object pushed onto `violations` or `warnings`.  The JS
objects are heterogeneous records; fields a given kind does not set are
`none` here.  The JS field `type` is called `ftype`. -/
structure Finding where
  ftype : String
  severity : String
  file : Option String
  line : Option Nat
  message : String
  contract : Option String
  snippet : Option String
  expected : Option String
deriving DecidableEq

/-- JS `content.split` at newline characters, on character lists
(an empty content yields one empty line, as in JS). -/
def jsSplitNl : List Char → List (List Char)
  | [] => [[]]
  | c :: cs =>
      if c = Char.ofNat 10 then [] :: jsSplitNl cs
      else
        match jsSplitNl cs with
        | [] => [[c]]
        | l :: ls => (c :: l) :: ls

/-- JS `String.trim` on character lists: strip whitespace at both ends. -/
def jsTrim (cs : List Char) : List Char :=
  ((cs.dropWhile isJsSpace).reverse.dropWhile isJsSpace).reverse

/-- JS `line.trim()` as a string. -/
def trimmed (line : String) : String := String.mk (jsTrim line.toList)

/-- JS `s.startsWith(pre)`. -/
def startsWithS (s pre : String) : Bool := pre.toList.isPrefixOf s.toList

/-- JS `line.trim().substring(0, 100)`: the snippet stored on a finding. -/
def snippetOf (line : String) : String :=
  String.mk (List.take 100 (jsTrim line.toList))

/-- First-occurrence string replacement, as JS `String.replace` with a
string pattern (the replacement carries no dollar escapes here). -/
def replaceFirstAux (pat rep : List Char) : List Char → List Char
  | [] => []
  | c :: cs =>
      if pat.isPrefixOf (c :: cs) then rep ++ List.drop pat.length (c :: cs)
      else c :: replaceFirstAux pat rep cs

/-- First-occurrence replacement on strings. -/
def replaceFirst (s pat rep : String) : String :=
  String.mk (replaceFirstAux pat.toList rep.toList s.toList)

/-- Whether `pat` occurs as a contiguous run at some position. -/
def infixAt (pat : List Char) : List Char → Bool
  | [] => pat.isPrefixOf []
  | c :: cs => pat.isPrefixOf (c :: cs) || infixAt pat cs

/-- JS `filePath.includes(pat)`. -/
def containsSub (s pat : String) : Bool := infixAt pat.toList s.toList

/-- The suppression test of the table-name check: contract definitions and
test/spec files, including a `__tests__` path segment. -/
def isContractOrTestTable (filePath : String) : Bool :=
  containsSub filePath "/contracts/" || containsSub filePath ".test." ||
  containsSub filePath ".spec." || containsSub filePath "__tests__"

/-- The suppression test of the Lambda-name and event-source checks:
contract definitions and test/spec files (no `__tests__` clause). -/
def isContractOrTestOther (filePath : String) : Bool :=
  containsSub filePath "/contracts/" || containsSub filePath ".test." ||
  containsSub filePath ".spec."

/-- The violation record pushed for a hardcoded table name. -/
def tableViolation (filePath : String) (lineNum : Nat) (line : String)
    (tableName : String) : Finding :=
  { ftype := "hardcoded_table_name"
    severity := "error"
    file := some filePath
    line := some lineNum
    message := "Hardcoded table name " ++ sq ++ tableName ++ sq ++
      " should use @teric/contracts"
    contract := some ("@teric/contracts/dynamodb/" ++
      replaceFirst tableName "teric-agentic-" "")
    snippet := some (snippetOf line)
    expected := none }

/-- The violation record pushed for a hardcoded Lambda name. -/
def lambdaViolation (filePath : String) (lineNum : Nat) (line : String)
    (funcName : String) : Finding :=
  { ftype := "hardcoded_lambda_name"
    severity := "error"
    file := some filePath
    line := some lineNum
    message := "Hardcoded Lambda name " ++ sq ++ funcName ++ sq ++
      " should use @teric/contracts"
    contract := some ("@teric/contracts/lambda/" ++ funcName)
    snippet := some (snippetOf line)
    expected := none }

/-- The warning record pushed for a hardcoded EventBridge source. -/
def sourceWarning (filePath : String) (lineNum : Nat) (line : String)
    (src : String) : Finding :=
  { ftype := "hardcoded_event_source"
    severity := "warning"
    file := some filePath
    line := some lineNum
    message := "EventBridge source " ++ sq ++ src ++ sq ++
      " should use @teric/contracts"
    contract := some ("@teric/contracts/events/" ++ replaceFirst src "teric." "")
    snippet := some (snippetOf line)
    expected := none }

/-- The warning produced when reading one file throws. -/
def scanErrorWarning (filePath : String) (errMsg : String) : Finding :=
  { ftype := "scan_error"
    severity := "warning"
    file := some filePath
    line := some 0
    message := "Could not scan file: " ++ errMsg
    contract := none
    snippet := none
    expected := none }

/-- The warning pushed when the configuration file is absent or fails to
parse. -/
def configErrorWarning (msg : String) : Finding :=
  { ftype := "config_error"
    severity := "warning"
    file := none
    line := none
    message := msg
    contract := none
    snippet := none
    expected := none }

/-- The warning pushed when the contracts package is not resolvable. -/
def packageNotInstalledWarning : Finding :=
  { ftype := "package_not_installed"
    severity := "warning"
    file := none
    line := none
    message := "@teric/contracts package not installed - cannot validate contract declarations"
    contract := none
    snippet := none
    expected := none }

/-- The warning pushed for a declared contract path outside the expected
namespace. -/
def invalidContractPathWarning (c : String) : Finding :=
  { ftype := "invalid_contract_path"
    severity := "warning"
    file := none
    line := none
    message := "Invalid contract path: " ++ c
    contract := none
    snippet := none
    expected := some "@teric/contracts/dynamodb/<table-name>" }

/-- The body of the per-line loop of `scanFile`: comment skip, then the
three pattern checks with their suppression tests, in source order.
Findings for one line are returned as (violations, warnings). -/
def scanLine (filePath : String) (lineNum : Nat) (line : String) :
    List Finding × List Finding :=
  if startsWithS (trimmed line) "//" || startsWithS (trimmed line) "#" ||
      startsWithS (trimmed line) "*" then ([], [])
  else
    let tv := (KNOWN_TABLE_PATTERNS.filter fun t =>
        tableRegexTest t line && !(isContractOrTestTable filePath)).map
        (fun t => tableViolation filePath lineNum line t)
    let lv := (KNOWN_LAMBDA_PATTERNS.filter fun f =>
        lambdaRegexTest f line && !(isContractOrTestOther filePath)).map
        (fun f => lambdaViolation filePath lineNum line f)
    let ev := (KNOWN_EVENT_SOURCES.filter fun s =>
        sourceRegexTest s line && !(isContractOrTestOther filePath)).map
        (fun s => sourceWarning filePath lineNum line s)
    (tv ++ lv, ev)

/-- `scanFile`: a failed read (the catch around `readFileSync`) yields no
violations and one `scan_error` warning; a successful read splits the
content on newlines and scans every line, line numbers starting at 1. -/
def scanFile (filePath : String) (readResult : Except String String) :
    List Finding × List Finding :=
  match readResult with
  | Except.error msg => ([], [scanErrorWarning filePath msg])
  | Except.ok content =>
      let ls := (jsSplitNl content.toList).map String.mk
      let per := ls.enum.map (fun p => scanLine filePath (p.1 + 1) p.2)
      ((per.map Prod.fst).flatten, (per.map Prod.snd).flatten)

/-- An uncaught JS runtime exception, identified by the dereference that
throws (the exact TypeError message is engine-specific, so the model tracks
the throwing site, not the text). -/
inductive JsError where
  | errorFieldOnNullish
  | tablesNotIterable
  | contractFieldOnNullish
  | contractNotString
deriving DecidableEq

/-- The JS value of a declared table's `contract` field, by how the guard
`table.contract && !table.contract.startsWith(...)` treats it: `absent`
covers every falsy value (undefined, null, false, 0; the empty string is
kept as `str` and skipped by the emptiness test), `str` is a string value,
`badTruthy` is a truthy non-string, on which the `startsWith` call throws
an uncaught TypeError. -/
inductive ContractField where
  | absent
  | str (s : String)
  | badTruthy
deriving DecidableEq

/-- One declared table of the configuration document (`name` unused by the
scanner). -/
structure TableDecl where
  name : Option String
  contract : ContractField
deriving DecidableEq

/-- One element of the declared tables array: `obj` is a value whose
property access is safe (an object; a primitive element behaves the same
with `contract` absent), `nullish` is a null/undefined element, on which
the access `table.contract` throws. -/
inductive TableItem where
  | obj (t : TableDecl)
  | nullish
deriving DecidableEq

/-- The JS value of `contracts.dynamodb?.tables`: `missing` covers an
absent/nullish `dynamodb` as well as a falsy `tables`; `arr` is an array
(a truthy iterable such as a string behaves as an array of elements with
`contract` absent); `badTruthy` is a truthy non-iterable value, on which
the `for...of` loop throws an uncaught TypeError. -/
inductive TablesField where
  | missing
  | arr (ts : List TableItem)
  | badTruthy
deriving DecidableEq

/-- The part of the parsed configuration the scanner reads. -/
structure Contracts where
  dynamodbTables : TablesField
deriving DecidableEq

/-- Result of `parseContractsFile`: an error record (file absent, or
`yaml.load` threw) with its message; an object document, on which property
access is safe (a primitive document such as a bare number or string
behaves as an object with no `error` and no `dynamodb`, since property
access on primitives yields undefined); or `nullish`, when `yaml.load`
returns undefined or null — an empty file, a comments-only file, or a null
document — which the caller then dereferences as `contracts.error`,
throwing an uncaught TypeError. -/
inductive ConfigParse where
  | err (msg : String)
  | ok (contracts : Contracts)
  | nullish
deriving DecidableEq

/-- One iteration of the declared-tables loop: the `table.contract` access
throws on a nullish element; the `startsWith` call throws on a truthy
non-string contract; otherwise a warning is produced exactly for a
non-empty contract string lacking the expected prefix. -/
def checkDeclaredTable : TableItem → Except JsError (Option Finding)
  | TableItem.nullish => Except.error JsError.contractFieldOnNullish
  | TableItem.obj t =>
      match t.contract with
      | ContractField.absent => Except.ok none
      | ContractField.badTruthy => Except.error JsError.contractNotString
      | ContractField.str c =>
          if c.toList.isEmpty then Except.ok none
          else if !(startsWithS c "@teric/contracts/") then
            Except.ok (some (invalidContractPathWarning c))
          else Except.ok none

/-- The declared-tables loop: warnings accumulate in array order until an
iteration throws, in which case the exception propagates (the warnings
pushed so far are discarded with the whole run). -/
def checkDeclaredTables : List TableItem → Except JsError (List Finding)
  | [] => Except.ok []
  | t :: ts =>
      match checkDeclaredTable t with
      | Except.error e => Except.error e
      | Except.ok w =>
          match checkDeclaredTables ts with
          | Except.error e => Except.error e
          | Except.ok ws => Except.ok (w.toList ++ ws)

/-- `validateDeclaredContracts`: one `package_not_installed` warning when
the contracts package does not resolve (the resolvability of the package in
the environment is the `pkgResolvable` input); otherwise the declared
tables are checked unless the guard `contracts.dynamodb?.tables` is falsy.
A truthy non-iterable `tables` value makes the `for...of` throw; elements
and contract fields can throw as described above. -/
def validateDeclaredContracts (pkgResolvable : Bool) (contracts : Contracts) :
    Except JsError (List Finding) :=
  if !pkgResolvable then Except.ok [packageNotInstalledWarning]
  else
    match contracts.dynamodbTables with
    | TablesField.missing => Except.ok []
    | TablesField.badTruthy => Except.error JsError.tablesNotIterable
    | TablesField.arr ts => checkDeclaredTables ts

/-- Summary block of the report. -/
structure Summary where
  total : Nat
  errors : Nat
  warnings : Nat
  filesScanned : Nat
deriving DecidableEq

/-- Metadata block of the report (the wall-clock timestamp is omitted). -/
structure Metadata where
  configFile : String
  advisoryMode : Bool
  version : String
deriving DecidableEq

/-- The report object serialized to standard output. -/
structure Report where
  passed : Bool
  violations : List Finding
  warnings : List Finding
  summary : Summary
  metadata : Metadata
deriving DecidableEq

/-- The `result` value as initialized at the top of `validate`. -/
def initialReport (advisoryMode : Bool) (configFile : String) : Report :=
  { passed := true
    violations := []
    warnings := []
    summary := { total := 0, errors := 0, warnings := 0, filesScanned := 0 }
    metadata := { configFile := configFile, advisoryMode := advisoryMode,
                  version := "1.0.0" } }

/-- All violations produced by scanning the enumerated files in order. -/
def scanAllViolations (files : List (String × Except String String)) :
    List Finding :=
  ((files.map fun f => scanFile f.1 f.2).map Prod.fst).flatten

/-- All scan warnings produced by scanning the enumerated files in order. -/
def scanAllWarnings (files : List (String × Except String String)) :
    List Finding :=
  ((files.map fun f => scanFile f.1 f.2).map Prod.snd).flatten

/-- The JS function `validate` itself, which can throw.  Inputs are the
advisory flag, config path, parse result of the configuration file,
resolvability of the contracts package and the enumerated source files
with their read results.  On success the first component collects the
reports written to standard output (one `console.log` per branch) and the
second is the value passed to `process.exit` (0 when the script simply
runs off the end).  Dereferencing `contracts.error` on a nullish parse
result throws before anything is emitted; the declared-contract check can
throw as modelled above.  On a configuration-error record the function
emits the initial report with the single `config_error` warning and
returns before summary counts are filled in; otherwise it scans, fills
the summary, sets `passed` and exits 1 exactly when violations exist
outside advisory mode. -/
def validateThrows (advisoryMode : Bool) (configFile : String)
    (cfg : ConfigParse) (pkgResolvable : Bool)
    (files : List (String × Except String String)) :
    Except JsError (List Report × Nat) :=
  match cfg with
  | ConfigParse.nullish => Except.error JsError.errorFieldOnNullish
  | ConfigParse.err msg =>
      Except.ok ([{ initialReport advisoryMode configFile with
            warnings := [configErrorWarning msg] }], 0)
  | ConfigParse.ok contracts =>
      match validateDeclaredContracts pkgResolvable contracts with
      | Except.error e => Except.error e
      | Except.ok declaredWarnings =>
          let violations := scanAllViolations files
          let warnings := declaredWarnings ++ scanAllWarnings files
          let errors := violations.length
          let warnCount := warnings.length
          let report : Report :=
            { passed := if 0 < violations.length then advisoryMode else true
              violations := violations
              warnings := warnings
              summary := { total := errors + warnCount, errors := errors,
                           warnings := warnCount, filesScanned := files.length }
              metadata := { configFile := configFile,
                            advisoryMode := advisoryMode,
                            version := "1.0.0" } }
          Except.ok ([report],
            if advisoryMode = false ∧ 0 < violations.length then 1 else 0)

/-- The whole process run: the script calls `validate()` unwrapped at top
level, so an exception escaping it reaches the Node default handler, which
prints a stack trace to standard error, emits no report on standard
output, and exits the process with code 1. -/
def validate (advisoryMode : Bool) (configFile : String) (cfg : ConfigParse)
    (pkgResolvable : Bool) (files : List (String × Except String String)) :
    List Report × Nat :=
  match validateThrows advisoryMode configFile cfg pkgResolvable files with
  | Except.ok r => r
  | Except.error _ => ([], 1)

/-- All ways of writing a table name with some of its hyphens omitted:
every sublist of the name obtained by deleting any subset of its hyphen
occurrences. -/
def hyphenDropVariants : List Char → List (List Char)
  | [] => [[]]
  | c :: cs =>
      let rest := hyphenDropVariants cs
      if c = '-' then rest.map (fun v => c :: v) ++ rest
      else rest.map (fun v => c :: v)

/-- The example line of the specification for the table-name check. -/
def constLine : String :=
  "const tableName = " ++ sq ++ "teric-agentic-work-items" ++ sq ++ ";"

/-- The example line of the specification for the Lambda-name check. -/
def fnLine : String := "FunctionName: " ++ sq ++ "app-code-review" ++ sq

/-- The example line of the specification for the event-source check. -/
def srcLine : String := "Source: " ++ sq ++ "teric.orchestrator" ++ sq

/-- Upper-case spelling of the table-name example line. -/
def upperTableLine : String :=
  "const tableName = " ++ sq ++ "TERIC-AGENTIC-WORK-ITEMS" ++ sq ++ ";"

/-- Upper/lower-case variant of the Lambda-name example line, with double
quotes. -/
def upperFnLine : String :=
  "functionname: " ++ String.singleton dquote ++ "APP-CODE-REVIEW" ++
    String.singleton dquote

/-- Upper-case spelling of the event-source example line. -/
def upperSrcLine : String := "SOURCE: " ++ sq ++ "TERIC.ORCHESTRATOR" ++ sq

/-- Classification content of a finding: kind, severity, message and
suggested contract path (everything except location and snippet). -/
def findingCore (f : Finding) : String × String × String × Option String :=
  (f.ftype, f.severity, f.message, f.contract)

/-- The report emitted by the configuration-error short-circuit for the
default configuration path. -/
def sampleErrReport : Report :=
  { initialReport false "infra.contracts.yaml" with
      warnings := [configErrorWarning "Config file not found: infra.contracts.yaml"] }

/-- The report emitted for a well-formed empty configuration with no files
to scan, in advisory mode with the contracts package resolvable. -/
def emptyOkReport : Report :=
  { passed := true
    violations := []
    warnings := []
    summary := { total := 0, errors := 0, warnings := 0, filesScanned := 0 }
    metadata := { configFile := "infra.contracts.yaml", advisoryMode := true,
                  version := "1.0.0" } }

/-- A path failing the table-name suppression test fails the weaker
Lambda/event-source suppression test as well. -/
lemma other_suppression_of_table (p : String)
    (h : isContractOrTestTable p = false) : isContractOrTestOther p = false := by
  simp [isContractOrTestTable, isContractOrTestOther] at h ⊢
  tauto

/-- C1: for every run that produces a report, `passed` is true iff the
violations list is empty or advisory mode is enabled; in particular with
advisory mode on, `passed` is true regardless of violations, and with
advisory mode off and at least one violation, `passed` is false. -/
theorem c1_passed_iff_empty_or_advisory
    (adv : Bool) (cf : String) (cfg : ConfigParse) (pkg : Bool)
    (files : List (String × Except String String)) (r : Report)
    (hr : r ∈ (validate adv cf cfg pkg files).1) :
    r.passed = (r.violations.isEmpty || adv) := by
  cases cfg with
  | err msg =>
      simp [validate, validateThrows] at hr
      subst hr
      simp [initialReport]
  | nullish =>
      simp [validate, validateThrows] at hr
  | ok c =>
      cases hdw : validateDeclaredContracts pkg c with
      | error e => simp [validate, validateThrows, hdw] at hr
      | ok dw =>
          simp [validate, validateThrows, hdw] at hr
          subst hr
          generalize scanAllViolations files = v
          cases v <;> simp

/-- Witness for C1: the configuration-error run in blocking mode. -/
theorem c1_witness :
    sampleErrReport ∈ (validate false "infra.contracts.yaml"
      (ConfigParse.err "Config file not found: infra.contracts.yaml") false []).1 ∧
    sampleErrReport.passed = (sampleErrReport.violations.isEmpty || false) :=
  ⟨by decide,
   c1_passed_iff_empty_or_advisory false "infra.contracts.yaml"
     (ConfigParse.err "Config file not found: infra.contracts.yaml") false []
     sampleErrReport (by decide)⟩

/-- C2 counterexample: the claim fails on the configuration-error
short-circuit, which emits the report before the summary is computed: the
emitted report carries one warning while `summary.warnings` (and
`summary.total`) is 0. -/
theorem c2_counterexample_config_error_summary :
    ((validate true "infra.contracts.yaml"
        (ConfigParse.err "Config file not found: infra.contracts.yaml")
        true []).1.map
      (fun r => (r.warnings.length, r.summary.warnings, r.summary.total)))
      = [(1, 0, 0)] := by
  decide

/-- C2 amended: for every run that passes configuration parsing (no
`config_error` short-circuit), `summary.errors` equals the length of the
violations array, `summary.warnings` the length of the warnings array, and
`summary.total` their sum; in the short-circuit run the summary stays all
zero while the warnings array has one entry. -/
theorem c2_amended_summary_counts (adv : Bool) (cf : String) (c : Contracts)
    (pkg : Bool) (files : List (String × Except String String)) (r : Report)
    (hr : r ∈ (validate adv cf (ConfigParse.ok c) pkg files).1) :
    r.summary.errors = r.violations.length ∧
    r.summary.warnings = r.warnings.length ∧
    r.summary.total = r.summary.errors + r.summary.warnings := by
  cases hdw : validateDeclaredContracts pkg c with
  | error e => simp [validate, validateThrows, hdw] at hr
  | ok dw =>
      simp [validate, validateThrows, hdw] at hr
      subst hr
      simp

/-- Witness for C2 amended: an empty run in advisory mode. -/
theorem c2_witness :
    emptyOkReport ∈ (validate true "infra.contracts.yaml"
      (ConfigParse.ok { dynamodbTables := TablesField.missing }) true []).1 ∧
    (emptyOkReport.summary.errors = emptyOkReport.violations.length ∧
     emptyOkReport.summary.warnings = emptyOkReport.warnings.length ∧
     emptyOkReport.summary.total =
       emptyOkReport.summary.errors + emptyOkReport.summary.warnings) :=
  ⟨by decide,
   c2_amended_summary_counts true "infra.contracts.yaml"
     { dynamodbTables := TablesField.missing } true [] emptyOkReport (by decide)⟩

/-- C3 code bug: a configuration file that exists but parses to a nullish
document (empty or comments-only, `yaml.load` returns undefined/null)
makes the `contracts.error` dereference throw, and the process exits 1
even in advisory mode with zero violations and no report emitted —
contradicting the claim that the exit code is 1 only in blocking mode with
at least one violation.  The theorem evaluates the run at that failing
input. -/
theorem c3_code_bug_crash_exit_one :
    (validate true "infra.contracts.yaml" ConfigParse.nullish true []).2 = 1 ∧
    (validate true "infra.contracts.yaml" ConfigParse.nullish true []).1 = [] ∧
    validateThrows true "infra.contracts.yaml" ConfigParse.nullish true [] =
      Except.error JsError.errorFieldOnNullish :=
  ⟨rfl, rfl, rfl⟩

/-- C4 code bug: on the same nullish configuration document the TypeError
thrown at the `contracts.error` dereference propagates out of the
top-level `validate()` call, so the run crashes with no JSON report on
standard output — contradicting the claim that no exception propagates
and exactly one report is always emitted.  The theorem evaluates the run
at that failing input: the function result is the escaped exception and
the emitted-report list is empty. -/
theorem c4_code_bug_uncaught_exception :
    validateThrows false "infra.contracts.yaml" ConfigParse.nullish true [] =
      Except.error JsError.errorFieldOnNullish ∧
    ((validate false "infra.contracts.yaml" ConfigParse.nullish true []).1).length
      = 0 :=
  ⟨rfl, rfl⟩

/-- C5: a missing or unparseable configuration file short-circuits the run:
the emitted report has `passed = true`, no violations, exactly the one
`config_error` warning, `filesScanned = 0`, and the exit code is 0 —
for either value of the advisory flag. -/
theorem c5_config_error_short_circuit (adv : Bool) (cf : String) (msg : String)
    (pkg : Bool) (files : List (String × Except String String)) :
    validate adv cf (ConfigParse.err msg) pkg files =
      ([{ passed := true, violations := [],
          warnings := [configErrorWarning msg],
          summary := { total := 0, errors := 0, warnings := 0, filesScanned := 0 },
          metadata := { configFile := cf, advisoryMode := adv,
                        version := "1.0.0" } }], 0) ∧
    (configErrorWarning msg).ftype = "config_error" ∧
    (configErrorWarning msg).severity = "warning" :=
  ⟨rfl, rfl, rfl⟩

set_option maxRecDepth 8000 in
/-- C6: the table-name match tolerates omission of any subset of hyphens
for every registered name in all three quote styles; no registered name
matches the strictly extending quoted string (neither the example extension
nor its own name extended); and the specification example line in a
non-test, non-contracts file yields exactly one `hardcoded_table_name`
violation carrying the line number and the 100-character trimmed snippet,
with line numbers counted from 1 by `scanFile`. -/
theorem c6_table_name_matching (p : String) (n : Nat)
    (h1 : isContractOrTestTable p = false) :
    ((KNOWN_TABLE_PATTERNS.all fun t =>
        (hyphenDropVariants t.toList).all fun v =>
          [squote, dquote, bquote].all fun q =>
            tableRegexTest t (String.mk (q :: (v ++ [q])))) = true) ∧
    ((KNOWN_TABLE_PATTERNS.all fun t =>
        !(tableRegexTest t (sq ++ "teric-agentic-work-items-v2" ++ sq))) = true) ∧
    ((KNOWN_TABLE_PATTERNS.all fun t =>
        !(tableRegexTest t (sq ++ t ++ "-v2" ++ sq))) = true) ∧
    scanLine p n constLine =
      ([tableViolation p n constLine "teric-agentic-work-items"], []) ∧
    (tableViolation p n constLine "teric-agentic-work-items").ftype =
      "hardcoded_table_name" ∧
    (tableViolation p n constLine "teric-agentic-work-items").line = some n ∧
    (tableViolation p n constLine "teric-agentic-work-items").snippet =
      some (snippetOf constLine) ∧
    scanFile "src/db.js" (Except.ok ("// header\n" ++ constLine)) =
      ([tableViolation "src/db.js" 2 constLine "teric-agentic-work-items"], []) := by
  refine ⟨by decide, by decide, by decide, ?_, rfl, rfl, rfl, by decide⟩
  have h2 := other_suppression_of_table p h1
  have e0 : (startsWithS (trimmed constLine) "//" ||
      startsWithS (trimmed constLine) "#" ||
      startsWithS (trimmed constLine) "*") = false := by decide
  have e1 : (KNOWN_TABLE_PATTERNS.filter fun t => tableRegexTest t constLine) =
      ["teric-agentic-work-items"] := by decide
  have e2 : (KNOWN_LAMBDA_PATTERNS.filter fun f => lambdaRegexTest f constLine) =
      [] := by decide
  have e3 : (KNOWN_EVENT_SOURCES.filter fun s => sourceRegexTest s constLine) =
      [] := by decide
  simp [scanLine, h1, h2, e0, e1, e2, e3]

/-- Witness for C6: the example line at line 7 of a regular source file. -/
theorem c6_witness :
    isContractOrTestTable "src/db.js" = false ∧
    scanLine "src/db.js" 7 constLine =
      ([tableViolation "src/db.js" 7 constLine "teric-agentic-work-items"], []) :=
  ⟨by decide, (c6_table_name_matching "src/db.js" 7 (by decide)).2.2.2.1⟩

/-- C7 counterexample: a path containing `__tests__` (and none of the other
suppression markers) is NOT suppressed by the Lambda-name check — the
example line still yields one violation there, contradicting the claim that
the Lambda-name and event-source checks suppress the same paths as the
table-name check. -/
theorem c7_counterexample_tests_path :
    containsSub "src/__tests__/handler.js" "__tests__" = true ∧
    isContractOrTestOther "src/__tests__/handler.js" = false ∧
    scanLine "src/__tests__/handler.js" 1 fnLine =
      ([lambdaViolation "src/__tests__/handler.js" 1 fnLine "app-code-review"],
       []) :=
  ⟨by decide, by decide, by decide⟩

/-- C7 amended: the Lambda-name and event-source checks suppress only paths
containing a contracts segment, `.test.` or `.spec.` — not `__tests__` —
and under any of those three conditions a line yields no finding at all
(the table-name check is suppressed there too, its marker set being a
superset). -/
theorem c7_amended_suppression (p : String) (n : Nat) (line : String)
    (h : isContractOrTestOther p = true) :
    scanLine p n line = ([], []) := by
  have ht : isContractOrTestTable p = true := by
    simp [isContractOrTestTable, isContractOrTestOther] at h ⊢
    tauto
  unfold scanLine
  split
  · rfl
  · simp [h, ht]

/-- Witness for C7 amended: a contracts-directory file with a matching
line yields nothing. -/
theorem c7_witness :
    isContractOrTestOther "src/contracts/tables.js" = true ∧
    scanLine "src/contracts/tables.js" 3 fnLine = ([], []) :=
  ⟨by decide, c7_amended_suppression "src/contracts/tables.js" 3 fnLine (by decide)⟩

/-- C8: in a non-test, non-contracts file the Lambda example line yields
exactly one `hardcoded_lambda_name` violation of severity error, and the
event-source example line yields exactly one `hardcoded_event_source`
finding of severity warning, placed in the warnings list and not among the
violations. -/
theorem c8_severity_tiers :
    scanLine "src/handler.js" 1 fnLine =
      ([lambdaViolation "src/handler.js" 1 fnLine "app-code-review"], []) ∧
    (lambdaViolation "src/handler.js" 1 fnLine "app-code-review").ftype =
      "hardcoded_lambda_name" ∧
    (lambdaViolation "src/handler.js" 1 fnLine "app-code-review").severity =
      "error" ∧
    scanLine "src/handler.js" 1 srcLine =
      ([], [sourceWarning "src/handler.js" 1 srcLine "teric.orchestrator"]) ∧
    (sourceWarning "src/handler.js" 1 srcLine "teric.orchestrator").ftype =
      "hardcoded_event_source" ∧
    (sourceWarning "src/handler.js" 1 srcLine "teric.orchestrator").severity =
      "warning" :=
  ⟨by decide, rfl, rfl, by decide, rfl, rfl⟩

/-- C9: a read failure of one file yields no violations and exactly one
`scan_error` warning naming that file and the failure reason, and the
findings of every other enumerated file are as if the failing file were
absent: its presence removes nothing from, and adds only its own warning
to, the aggregated results. -/
theorem c9_read_failure_isolated (p : String) (msg : String)
    (pre post : List (String × Except String String)) :
    scanFile p (Except.error msg) = ([], [scanErrorWarning p msg]) ∧
    scanAllViolations (pre ++ (p, Except.error msg) :: post) =
      scanAllViolations (pre ++ post) ∧
    scanAllWarnings (pre ++ (p, Except.error msg) :: post) =
      scanAllWarnings pre ++ scanErrorWarning p msg :: scanAllWarnings post ∧
    (scanErrorWarning p msg).ftype = "scan_error" ∧
    (scanErrorWarning p msg).file = some p ∧
    (scanErrorWarning p msg).message = "Could not scan file: " ++ msg := by
  refine ⟨rfl, ?_, ?_, rfl, rfl, rfl⟩
  · simp [scanAllViolations, scanFile]
  · simp [scanAllWarnings, scanFile]

/-- C10: all three checks match case-insensitively: upper-case spellings of
the three example identifiers produce exactly the finding the lower-case
spellings produce (same kind, severity, message and suggested contract
path, the message and path always using the canonical registry spelling;
only the snippet reflects the line as written). -/
theorem c10_case_insensitive :
    scanLine "src/app.js" 1 upperTableLine =
      ([tableViolation "src/app.js" 1 upperTableLine "teric-agentic-work-items"],
       []) ∧
    scanLine "src/app.js" 1 upperFnLine =
      ([lambdaViolation "src/app.js" 1 upperFnLine "app-code-review"], []) ∧
    scanLine "src/app.js" 1 upperSrcLine =
      ([], [sourceWarning "src/app.js" 1 upperSrcLine "teric.orchestrator"]) ∧
    ((scanLine "src/app.js" 1 upperTableLine).1.map findingCore =
      (scanLine "src/app.js" 1 constLine).1.map findingCore) ∧
    ((scanLine "src/app.js" 1 upperFnLine).1.map findingCore =
      (scanLine "src/app.js" 1 fnLine).1.map findingCore) ∧
    ((scanLine "src/app.js" 1 upperSrcLine).2.map findingCore =
      (scanLine "src/app.js" 1 srcLine).2.map findingCore) ∧
    (tableViolation "src/app.js" 1 upperTableLine "teric-agentic-work-items").message =
      "Hardcoded table name " ++ sq ++ "teric-agentic-work-items" ++ sq ++
        " should use @teric/contracts" ∧
    (tableViolation "src/app.js" 1 upperTableLine "teric-agentic-work-items").contract =
      some "@teric/contracts/dynamodb/work-items" :=
  ⟨by decide, by decide, by decide, by decide, by decide, by decide, rfl,
   by decide⟩

end ContractValidation
